import Mathlib

/-!
Verification of the "open file in default terminal" VS Code extension.

The development shallowly embeds the two source variants:
* the cascading variant (`openSystemTerminal`, `spawnPromise`, `activate`),
* the minimal single-candidate variant (`openAlacrittyTmux` and its `activate`).

A spawned child's asynchronous behaviour is modelled by `SpawnBehavior`:
either the `spawn` call itself throws synchronously, or an error event
fires at some time `t` (milliseconds), or no error event ever fires.
`spawnPromise` races the fixed 200ms timer against that behaviour exactly
as the source does.  The cascade resolver is driven by an oracle
`behav : String → List String → SpawnBehavior` assigning a behaviour to
each candidate invocation; it returns its boolean result together with the
trace of candidates it actually attempted, in order.  The VS Code command
handlers are embedded as functions producing the ordered list of
observable `HostAction`s (process spawns and UI requests).
-/

/-- Behaviour of one `child_process.spawn` call, as observed by the caller:
the call throws synchronously, or an asynchronous error event fires at
time `t` milliseconds after the call, or no error event ever fires. -/
inductive SpawnBehavior where
  | throws : SpawnBehavior
  | errAt (t : Nat) : SpawnBehavior
  | noError : SpawnBehavior
deriving DecidableEq, Repr

/-- Result of one launch attempt, as the spec's tri-state collapsed to the
two reachable states: the promise rejected (`Failed`) or resolved
(`Succeeded`). -/
inductive LaunchOutcome where
  | Succeeded : LaunchOutcome
  | Failed : LaunchOutcome
deriving DecidableEq, Repr

/-- What one settled launch-attempt promise looks like: its outcome, and
the time (ms after the spawn call) at which `child.unref()` ran, if the
timer callback ran at all. -/
structure SpawnResult where
  outcome : LaunchOutcome
  unrefTime : Option Nat
deriving DecidableEq, Repr

/-- `spawnPromise` generalised over the timer duration `w`:
`spawn` is issued; a synchronous throw rejects at once (no child, no
timer).  Otherwise the error event at time `t` rejects the promise if it
fires strictly before the timer; the timer callback at time `w` calls
`child.unref()` and resolves.  The timer callback runs at `w` even when
the promise already rejected (a settled promise ignores the late
`resolve`), so `unrefTime` is `some w` whenever a child was created. -/
def spawnPromiseAt (w : Nat) : SpawnBehavior → SpawnResult
  | .throws => ⟨.Failed, none⟩
  | .errAt t => if t < w then ⟨.Failed, some w⟩ else ⟨.Succeeded, some w⟩
  | .noError => ⟨.Succeeded, some w⟩

/-- The fixed decision window of `spawnPromise`: the literal `200`
passed to `setTimeout` in the source. -/
def decisionWindow : Nat := 200

/-- `function spawnPromise(cmd, args)` of the cascading variant: one
launch attempt with the fixed 200ms decision window.  The command and
argument list only feed the spawned process, so the model takes the
child's behaviour directly. -/
def spawnPromise : SpawnBehavior → SpawnResult :=
  spawnPromiseAt decisionWindow

/-- A candidate is one `(command, argument list)` pair. -/
def Candidate : Type := String × List String
deriving instance DecidableEq, Repr for Candidate

/-- `true` when awaiting `spawnPromise` on this candidate does not throw,
i.e. the attempt's outcome is `Succeeded`, under the oracle `behav`
assigning each invocation its child behaviour. -/
def attemptSucceeds (behav : String → List String → SpawnBehavior)
    (cmd : String) (args : List String) : Bool :=
  (spawnPromise (behav cmd args)).outcome = .Succeeded

/-- The try/catch cascade over a candidate list: attempt each candidate in
order, stop at the first success.  Returns the boolean result together
with the list of candidates actually attempted, in order. -/
def tryCandidates (succ : String → List String → Bool) :
    List Candidate → Bool × List Candidate
  | [] => (false, [])
  | c :: rest =>
    if succ c.1 c.2 then (true, [c])
    else
      let r := tryCandidates succ rest
      (r.1, c :: r.2)

/-- Shell-command argument built for `gnome-terminal`:
`` cd "${targetDir}"; exec bash `` (raw interpolation of the directory). -/
def gnomeShellArg (targetDir : String) : String :=
  "cd \"" ++ targetDir ++ "\"; exec bash"

/-- A single-quote character, written by code point to keep the shell
command strings below readable as data. -/
def singleQuote : String := (Char.ofNat 39).toString

/-- Shell-command argument built for `x-terminal-emulator`:
`` bash -c 'cd "${targetDir}"; exec bash' ``. -/
def xtermEmuArg (targetDir : String) : String :=
  "bash -c " ++ singleQuote ++ "cd \"" ++ targetDir ++ "\"; exec bash" ++ singleQuote

/-- Shell-command argument built for `xterm`:
`` bash -lc 'cd "${targetDir}"; exec bash' ``. -/
def xtermArg (targetDir : String) : String :=
  "bash -lc " ++ singleQuote ++ "cd \"" ++ targetDir ++ "\"; exec bash" ++ singleQuote

/-- Shell-command argument built for the `cmd.exe` fallback:
`` cd /d "${targetDir}" ``. -/
def cmdCdArg (targetDir : String) : String :=
  "cd /d \"" ++ targetDir ++ "\""

/-- `async function openSystemTerminal(targetDir)` of the cascading
variant, with the platform string (`os.platform()`) and the per-candidate
child behaviour made explicit inputs.  Each platform branch is the
nested try/catch (resp. the `for` loop) of the source, i.e. a cascade
over its inline candidate list; an unrecognised platform returns `false`
with no attempt. -/
def openSystemTerminal (behav : String → List String → SpawnBehavior)
    (plt targetDir : String) : Bool × List Candidate :=
  if plt = "darwin" then
    tryCandidates (attemptSucceeds behav)
      [("open", ["-a", "Terminal", targetDir]),
       ("open", ["-a", "iTerm", targetDir])]
  else if plt = "win32" then
    tryCandidates (attemptSucceeds behav)
      [("wt", ["-d", targetDir]),
       ("cmd", ["/c", "start", "cmd.exe", "/K", cmdCdArg targetDir])]
  else if plt = "linux" then
    tryCandidates (attemptSucceeds behav)
      [("gnome-terminal", ["--", "bash", "-lc", gnomeShellArg targetDir]),
       ("konsole", ["--workdir", targetDir]),
       ("xfce4-terminal", ["--working-directory", targetDir]),
       ("x-terminal-emulator", ["-e", xtermEmuArg targetDir]),
       ("xterm", ["-e", xtermArg targetDir])]
  else (false, [])

/-- The candidate table of `openSystemTerminal`, read off per platform
(empty for an unrecognised platform). -/
def openCandidates (plt targetDir : String) : List Candidate :=
  if plt = "darwin" then
    [("open", ["-a", "Terminal", targetDir]),
     ("open", ["-a", "iTerm", targetDir])]
  else if plt = "win32" then
    [("wt", ["-d", targetDir]),
     ("cmd", ["/c", "start", "cmd.exe", "/K", cmdCdArg targetDir])]
  else if plt = "linux" then
    [("gnome-terminal", ["--", "bash", "-lc", gnomeShellArg targetDir]),
     ("konsole", ["--workdir", targetDir]),
     ("xfce4-terminal", ["--working-directory", targetDir]),
     ("x-terminal-emulator", ["-e", xtermEmuArg targetDir]),
     ("xterm", ["-e", xtermArg targetDir])]
  else []

/-- The scan of Node's posix `path.dirname`: walk indices `i+1, i, …, 1`
from the end of the string, skipping the trailing run of `/` characters,
and return the index of the first `/` met after a non-`/` character
(`none` when no such separator exists above index 0).  `ms` is the
`matchedSlash` flag of the source: still inside the trailing slash run. -/
def dnLoop (cs : List Char) : Nat → Bool → Option Nat
  | 0, _ => none
  | i + 1, ms =>
    if cs.getD (i + 1) ' ' = '/' then
      if ms then dnLoop cs i ms else some (i + 1)
    else dnLoop cs i false

/-- Node's posix `path.dirname`: empty path gives `"."`; otherwise drop
the basename (and the slash before it), yielding `"/"` or `"."` when no
usable separator exists, and the special `"//"` root case. -/
def dirname (p : String) : String :=
  if p.length = 0 then "."
  else
    let cs := p.toList
    let hasRoot := cs.getD 0 ' ' = '/'
    match dnLoop cs (cs.length - 1) true with
    | none => if hasRoot then "/" else "."
    | some e => if hasRoot ∧ e = 1 then "//" else String.mk (cs.take e)

/-- One observable action of a command-handler run: a process spawn
attempt, or one of the VS Code UI requests the handlers make. -/
inductive HostAction where
  | spawnAttempt (cmd : String) (args : List String) : HostAction
  | showError (msg : String) : HostAction
  | createTerminal (nm cwd : String) : HostAction
  | showTerminal (preserveFocus : Bool) : HostAction
  | showInfo (msg : String) : HostAction
deriving DecidableEq, Repr

/-- The spawn attempts of a candidate trace, as observable actions. -/
def spawnActions (cs : List Candidate) : List HostAction :=
  cs.map fun c => .spawnAttempt c.1 c.2

/-- `function openIntegratedTerminal(targetDir, label)`: create the VS
Code integrated terminal with the given name and working directory and
show it. -/
def openIntegratedTerminal (targetDir label : String) : List HostAction :=
  [.createTerminal label targetDir, .showTerminal true]

/-- Body of the cascading variant's command callback once a target
directory is known: run `openSystemTerminal`, and on `false` fall back to
the integrated terminal plus the informational notice. -/
def terminalActionsAt (behav : String → List String → SpawnBehavior)
    (plt targetDir : String) : List HostAction :=
  let r := openSystemTerminal behav plt targetDir
  spawnActions r.2 ++
    if r.1 then []
    else
      openIntegratedTerminal targetDir ("Terminal — " ++ targetDir) ++
        [.showInfo "Opened VS Code integrated terminal (system terminal not found)."]

/-- The command callback registered by `activate` in the cascading
variant: `resource` is the explorer selection's `fsPath` (if any),
`activeDoc` the active editor document's `fsPath` (if any).  No file URI
at all shows an error and returns; otherwise the target directory is
`dirname` of the file path and the resolver runs. -/
def activateHandler (behav : String → List String → SpawnBehavior)
    (plt : String) (resource activeDoc : Option String) : List HostAction :=
  let fileUri := match resource with
    | some r => some r
    | none => activeDoc
  match fileUri with
  | none => [.showError "No file selected to open in terminal."]
  | some filePath => terminalActionsAt behav plt (dirname filePath)

/-- `function openAlacrittyTmux(targetDir)` of the minimal variant: a
single `spawn` of `alacritty --working-directory <dir>` wrapped in the
same promise shape, with its own literal 200ms `setTimeout`. -/
def openAlacrittyTmux : SpawnBehavior → SpawnResult
  | .throws => ⟨.Failed, none⟩
  | .errAt t => if t < 200 then ⟨.Failed, some 200⟩ else ⟨.Succeeded, some 200⟩
  | .noError => ⟨.Succeeded, some 200⟩

/-- The command callback registered by `activate` in the minimal variant:
same file-URI resolution, then exactly one `alacritty` attempt; a
rejection is caught and surfaced as an error message, with no further
fallback of any kind. -/
def activateHandlerMin (behav : String → List String → SpawnBehavior)
    (resource activeDoc : Option String) : List HostAction :=
  let fileUri := match resource with
    | some r => some r
    | none => activeDoc
  match fileUri with
  | none => [.showError "No file selected."]
  | some filePath =>
    let targetDir := dirname filePath
    let args := ["--working-directory", targetDir]
    .spawnAttempt "alacritty" args ::
      if (openAlacrittyTmux (behav "alacritty" args)).outcome = .Failed then
        [.showError "Failed to open Alacritty (is it installed?)."]
      else []

/-- Characters up to (excluding) the next double-quote character, or
`none` when no closing double quote follows. -/
def quotedSpan : List Char → Option (List Char)
  | [] => none
  | c :: cs => if c = '"' then some [] else (quotedSpan cs).map fun l => c :: l

/-- Characters of the first double-quoted region of a character list:
everything strictly between the first double quote and the next one. -/
def firstQuotedChars : List Char → Option (List Char)
  | [] => none
  | c :: cs => if c = '"' then quotedSpan cs else firstQuotedChars cs

/-- The first double-quoted region of a string, i.e. what a reader of the
constructed shell command would take to be the quoted directory. -/
def firstQuoted (s : String) : Option String :=
  (firstQuotedChars s.toList).map String.mk

/-- Whether a host action is a process-spawn attempt. -/
def isSpawn : HostAction → Bool
  | .spawnAttempt _ _ => true
  | _ => false

/-- An error event was observed strictly before the window of length `w`
elapsed (a synchronous throw counts as an error observed at once). -/
def errorBeforeWindow (b : SpawnBehavior) (w : Nat) : Prop :=
  b = .throws ∨ ∃ t, b = .errAt t ∧ t < w

/-- Stub child behaviour: every spawn fires an error event immediately. -/
def failAllBehav : String → List String → SpawnBehavior :=
  fun _ _ => .errAt 0

/-- Stub child behaviour: only the `xfce4-terminal` spawn stays silent;
every other spawn fires an error event immediately. -/
def xfceOnlyBehav : String → List String → SpawnBehavior :=
  fun cmd _ => if cmd = "xfce4-terminal" then .noError else .errAt 0

/-- If every candidate of the list fails, the cascade attempts them all in
order and returns `false`. -/
theorem tryCandidates_all_fail (succ : String → List String → Bool) :
    ∀ l : List Candidate, (∀ c ∈ l, succ c.1 c.2 = false) →
      tryCandidates succ l = (false, l) := by
  intro l
  induction l with
  | nil => intro _; rfl
  | cons c rest ih =>
    intro h
    have hc : succ c.1 c.2 = false := h c (List.mem_cons_self c rest)
    have hr := ih fun d hd => h d (List.mem_cons_of_mem c hd)
    simp [tryCandidates, hc, hr]

/-- If the candidate at index `n` succeeds and every earlier one fails,
the cascade attempts exactly the first `n + 1` candidates in order and
returns `true`. -/
theorem tryCandidates_first_success (succ : String → List String → Bool) :
    ∀ (l : List Candidate) (n : Nat) (hn : n < l.length),
      (∀ c ∈ l.take n, succ c.1 c.2 = false) →
      succ (l.get ⟨n, hn⟩).1 (l.get ⟨n, hn⟩).2 = true →
      tryCandidates succ l = (true, l.take (n + 1)) := by
  intro l
  induction l with
  | nil => intro n hn; exact absurd hn (Nat.not_lt_zero n)
  | cons c rest ih =>
    intro n hn hpre hsucc
    cases n with
    | zero =>
      simp only [List.get] at hsucc
      simp [tryCandidates, hsucc]
    | succ m =>
      have hc : succ c.1 c.2 = false := hpre c (by simp [List.take_succ_cons])
      have hpre' : ∀ d ∈ rest.take m, succ d.1 d.2 = false := by
        intro d hd
        exact hpre d (by simp [List.take_succ_cons, hd])
      have hsucc' : succ (rest.get ⟨m, Nat.lt_of_succ_lt_succ hn⟩).1
          (rest.get ⟨m, Nat.lt_of_succ_lt_succ hn⟩).2 = true := hsucc
      have hr := ih m (Nat.lt_of_succ_lt_succ hn) hpre' hsucc'
      simp [tryCandidates, hc, hr, List.take_succ_cons]

/-- `openSystemTerminal` is the cascade over its per-platform candidate
table (the empty table for an unrecognised platform). -/
theorem openSystemTerminal_eq_table (behav : String → List String → SpawnBehavior)
    (plt targetDir : String) :
    openSystemTerminal behav plt targetDir =
      tryCandidates (attemptSucceeds behav) (openCandidates plt targetDir) := by
  unfold openSystemTerminal openCandidates
  by_cases h1 : plt = "darwin"
  · simp [h1]
  · by_cases h2 : plt = "win32"
    · simp [h1, h2]
    · by_cases h3 : plt = "linux"
      · simp [h1, h2, h3]
      · simp [h1, h2, h3, tryCandidates]

/-- Claim C1: on every known platform the resolver walks the platform's
candidate table in order, one launch attempt per candidate; if the
candidate at index `n` is the first to succeed, exactly the first `n + 1`
candidates are attempted, in order, and the resolver returns `true`; if
every candidate fails, each is attempted exactly once, in order, and the
resolver returns `false`. -/
theorem c1_cascade_order_shortcircuit (behav : String → List String → SpawnBehavior)
    (plt targetDir : String)
    (hplt : plt = "darwin" ∨ plt = "win32" ∨ plt = "linux") :
    (∀ (n : Nat) (hn : n < (openCandidates plt targetDir).length),
        (∀ c ∈ (openCandidates plt targetDir).take n,
            attemptSucceeds behav c.1 c.2 = false) →
        attemptSucceeds behav ((openCandidates plt targetDir).get ⟨n, hn⟩).1
            ((openCandidates plt targetDir).get ⟨n, hn⟩).2 = true →
        openSystemTerminal behav plt targetDir =
          (true, (openCandidates plt targetDir).take (n + 1))) ∧
    ((∀ c ∈ openCandidates plt targetDir, attemptSucceeds behav c.1 c.2 = false) →
        openSystemTerminal behav plt targetDir =
          (false, openCandidates plt targetDir)) := by
  constructor
  · intro n hn hpre hsucc
    rw [openSystemTerminal_eq_table]
    exact tryCandidates_first_success (attemptSucceeds behav) _ n hn hpre hsucc
  · intro hall
    rw [openSystemTerminal_eq_table]
    exact tryCandidates_all_fail (attemptSucceeds behav) _ hall

/-- Witness for C1: on Linux with the first two candidates failing and
`xfce4-terminal` (index 2) succeeding, exactly three attempts happen and
the resolver returns `true`. -/
theorem c1_cascade_order_shortcircuit_witness :
    openSystemTerminal xfceOnlyBehav "linux" "/home/me/projects/foo/src" =
      (true, (openCandidates "linux" "/home/me/projects/foo/src").take 3) :=
  (c1_cascade_order_shortcircuit xfceOnlyBehav "linux" "/home/me/projects/foo/src"
      (Or.inr (Or.inr rfl))).1 2 (by decide) (by decide) (by decide)

/-- Claim C2: an unrecognised platform identifier makes the resolver
return `false` at once, with zero spawn attempts. -/
theorem c2_unknown_platform (behav : String → List String → SpawnBehavior)
    (plt targetDir : String)
    (h1 : plt ≠ "darwin") (h2 : plt ≠ "win32") (h3 : plt ≠ "linux") :
    openSystemTerminal behav plt targetDir = (false, []) := by
  unfold openSystemTerminal
  simp [h1, h2, h3]

/-- Witness for C2: the platform string `"freebsd"` resolves to `false`
with an empty attempt trace. -/
theorem c2_unknown_platform_witness :
    openSystemTerminal failAllBehav "freebsd" "/tmp" = (false, []) :=
  c2_unknown_platform failAllBehav "freebsd" "/tmp" (by decide) (by decide) (by decide)

/-- Claim C3: a launch attempt is `Failed` exactly when an error is
observed strictly before the decision window elapses, and `Succeeded`
otherwise; an error event at or after window expiry leaves the outcome
`Succeeded`, and on success the child was unreferenced at window expiry. -/
theorem c3_decision_window (b : SpawnBehavior) :
    ((spawnPromise b).outcome = .Failed ↔ errorBeforeWindow b decisionWindow) ∧
    ((spawnPromise b).outcome = .Succeeded ↔ ¬ errorBeforeWindow b decisionWindow) ∧
    (∀ t, decisionWindow ≤ t →
        (spawnPromise (.errAt t)).outcome = .Succeeded ∧
        (spawnPromise (.errAt t)).unrefTime = some decisionWindow) ∧
    ((spawnPromise b).outcome = .Succeeded →
        (spawnPromise b).unrefTime = some decisionWindow) := by
  refine ⟨?_, ?_, ?_, ?_⟩
  · cases b with
    | throws => simp [spawnPromise, spawnPromiseAt, errorBeforeWindow]
    | errAt t =>
      by_cases ht : t < decisionWindow <;>
        simp [spawnPromise, spawnPromiseAt, errorBeforeWindow, ht]
    | noError => simp [spawnPromise, spawnPromiseAt, errorBeforeWindow]
  · cases b with
    | throws => simp [spawnPromise, spawnPromiseAt, errorBeforeWindow]
    | errAt t =>
      by_cases ht : t < decisionWindow <;>
        simp [spawnPromise, spawnPromiseAt, errorBeforeWindow, ht]
    | noError => simp [spawnPromise, spawnPromiseAt, errorBeforeWindow]
  · intro t ht
    have ht' : ¬ t < decisionWindow := Nat.not_lt.mpr ht
    simp [spawnPromise, spawnPromiseAt, ht']
  · cases b with
    | throws => simp [spawnPromise, spawnPromiseAt]
    | errAt t =>
      by_cases ht : t < decisionWindow <;>
        simp [spawnPromise, spawnPromiseAt, ht]
    | noError => simp [spawnPromise, spawnPromiseAt]

/-- Witness for C3: an error event at `t = 250`, after the 200ms window,
leaves the outcome `Succeeded` with the child unreferenced at expiry. -/
theorem c3_decision_window_witness :
    (spawnPromise (.errAt 250)).outcome = .Succeeded ∧
    (spawnPromise (.errAt 250)).unrefTime = some decisionWindow :=
  (c3_decision_window (.errAt 250)).2.2.1 250 (by decide)

/-- Claim C4: the candidate table is, per platform and for every target
directory: macOS `open -a Terminal`, then `open -a iTerm`; Windows
`wt -d`, then `cmd /c start cmd.exe /K cd /d "<dir>"`; Linux the ordered
probes gnome-terminal, konsole, xfce4-terminal, x-terminal-emulator,
xterm, each embedding the directory in its own convention. -/
theorem c4_candidate_table (d : String) :
    openCandidates "darwin" d =
      [("open", ["-a", "Terminal", d]), ("open", ["-a", "iTerm", d])] ∧
    openCandidates "win32" d =
      [("wt", ["-d", d]),
       ("cmd", ["/c", "start", "cmd.exe", "/K", "cd /d \"" ++ d ++ "\""])] ∧
    openCandidates "linux" d =
      [("gnome-terminal", ["--", "bash", "-lc", "cd \"" ++ d ++ "\"; exec bash"]),
       ("konsole", ["--workdir", d]),
       ("xfce4-terminal", ["--working-directory", d]),
       ("x-terminal-emulator",
        ["-e", "bash -c " ++ singleQuote ++ "cd \"" ++ d ++ "\"; exec bash" ++ singleQuote]),
       ("xterm",
        ["-e", "bash -lc " ++ singleQuote ++ "cd \"" ++ d ++ "\"; exec bash" ++ singleQuote])] :=
  ⟨rfl, rfl, rfl⟩

/-- Claim C5: whenever the resolver returns `false`, the command handler
opens the integrated terminal at the same target directory and shows the
informational notice, and no error message is shown anywhere (in
particular none per failed candidate). -/
theorem c5_exhaustion_fallback (behav : String → List String → SpawnBehavior)
    (plt p : String) (activeDoc : Option String)
    (hfail : (openSystemTerminal behav plt (dirname p)).1 = false) :
    activateHandler behav plt (some p) activeDoc =
      spawnActions (openSystemTerminal behav plt (dirname p)).2 ++
        [.createTerminal ("Terminal — " ++ dirname p) (dirname p),
         .showTerminal true,
         .showInfo "Opened VS Code integrated terminal (system terminal not found)."] ∧
    ∀ m, HostAction.showError m ∉ activateHandler behav plt (some p) activeDoc := by
  constructor
  · simp [activateHandler, terminalActionsAt, openIntegratedTerminal, hfail]
  · intro m
    simp [activateHandler, terminalActionsAt, openIntegratedTerminal, hfail, spawnActions]

/-- Witness for C5: on macOS with every spawn failing, the handler ends in
the integrated-terminal fallback plus the informational notice. -/
theorem c5_exhaustion_fallback_witness :
    activateHandler failAllBehav "darwin" (some "/home/me/x.txt") none =
      spawnActions (openSystemTerminal failAllBehav "darwin" (dirname "/home/me/x.txt")).2 ++
        [.createTerminal ("Terminal — " ++ dirname "/home/me/x.txt") (dirname "/home/me/x.txt"),
         .showTerminal true,
         .showInfo "Opened VS Code integrated terminal (system terminal not found)."] :=
  (c5_exhaustion_fallback failAllBehav "darwin" "/home/me/x.txt" none (by decide)).1

/-- Claim C6: with no resource and no active editor document, both
variants show their error message and stop before any spawn attempt. -/
theorem c6_no_directory_context (behav : String → List String → SpawnBehavior)
    (plt : String) :
    activateHandler behav plt none none =
      [.showError "No file selected to open in terminal."] ∧
    activateHandlerMin behav none none = [.showError "No file selected."] ∧
    ∀ cmd args,
      HostAction.spawnAttempt cmd args ∉ activateHandler behav plt none none ∧
      HostAction.spawnAttempt cmd args ∉ activateHandlerMin behav none none := by
  refine ⟨rfl, rfl, ?_⟩
  intro cmd args
  constructor
  · simp [activateHandler]
  · simp [activateHandlerMin]

/-- Witness for C6: concrete instance of the no-spawn part on Linux. -/
theorem c6_no_directory_context_witness :
    HostAction.spawnAttempt "xterm" [] ∉ activateHandler failAllBehav "linux" none none :=
  ((c6_no_directory_context failAllBehav "linux").2.2 "xterm" []).1

/-- Claim C7: the minimal variant, given a directory context, makes
exactly one spawn attempt — `alacritty --working-directory <dir>`; on
failure it shows the error naming Alacritty and nothing else (no second
candidate, no integrated terminal, no informational notice). -/
theorem c7_minimal_variant (behav : String → List String → SpawnBehavior)
    (p : String) (activeDoc : Option String) :
    (activateHandlerMin behav (some p) activeDoc).filter isSpawn =
      [.spawnAttempt "alacritty" ["--working-directory", dirname p]] ∧
    ((openAlacrittyTmux (behav "alacritty" ["--working-directory", dirname p])).outcome
        = .Failed →
      activateHandlerMin behav (some p) activeDoc =
        [.spawnAttempt "alacritty" ["--working-directory", dirname p],
         .showError "Failed to open Alacritty (is it installed?)."]) ∧
    (∀ nm cwd, HostAction.createTerminal nm cwd ∉ activateHandlerMin behav (some p) activeDoc) ∧
    (∀ m, HostAction.showInfo m ∉ activateHandlerMin behav (some p) activeDoc) := by
  by_cases h : (openAlacrittyTmux (behav "alacritty" ["--working-directory", dirname p])).outcome
      = LaunchOutcome.Failed
  · refine ⟨?_, fun _ => ?_, ?_, ?_⟩ <;> simp [activateHandlerMin, isSpawn, h]
  · refine ⟨?_, fun hf => absurd hf h, ?_, ?_⟩ <;> simp [activateHandlerMin, isSpawn, h]

/-- Witness for C7: with the alacritty spawn erroring immediately, the
trace is the single attempt followed by the Alacritty error message. -/
theorem c7_minimal_variant_witness :
    activateHandlerMin failAllBehav (some "/home/me/a.txt") none =
      [.spawnAttempt "alacritty" ["--working-directory", dirname "/home/me/a.txt"],
       .showError "Failed to open Alacritty (is it installed?)."] :=
  (c7_minimal_variant failAllBehav "/home/me/a.txt" none).2.1 (by decide)

/-- Claim C8: one fixed 200ms decision window governs every launch
attempt: `spawnPromise` (used for every candidate of every platform in
the cascading variant) and the minimal variant's attempt are both the
window-parameterised race instantiated at the same constant 200, which is
not a per-candidate input. -/
theorem c8_single_timeout (b : SpawnBehavior)
    (behav : String → List String → SpawnBehavior) (cmd : String) (args : List String) :
    decisionWindow = 200 ∧
    spawnPromise b = spawnPromiseAt 200 b ∧
    openAlacrittyTmux b = spawnPromiseAt 200 b ∧
    attemptSucceeds behav cmd args =
      decide ((spawnPromiseAt 200 (behav cmd args)).outcome = LaunchOutcome.Succeeded) := by
  refine ⟨rfl, rfl, ?_, rfl⟩
  cases b <;> rfl

/-- Claim C9: the inline shell commands for gnome-terminal,
x-terminal-emulator, xterm and the cmd.exe fallback embed the target
directory by raw interpolation between double quotes with no escaping, so
for a directory containing a double quote the quoted region of the
constructed argument is not the target directory. -/
theorem c9_raw_interpolation (d : String) :
    gnomeShellArg d = "cd \"" ++ d ++ "\"; exec bash" ∧
    xtermEmuArg d =
      "bash -c " ++ singleQuote ++ "cd \"" ++ d ++ "\"; exec bash" ++ singleQuote ∧
    xtermArg d =
      "bash -lc " ++ singleQuote ++ "cd \"" ++ d ++ "\"; exec bash" ++ singleQuote ∧
    cmdCdArg d = "cd /d \"" ++ d ++ "\"" ∧
    (firstQuoted (gnomeShellArg "/tmp/a\"b") = some "/tmp/a" ∧
     firstQuoted (xtermEmuArg "/tmp/a\"b") = some "/tmp/a" ∧
     firstQuoted (xtermArg "/tmp/a\"b") = some "/tmp/a" ∧
     firstQuoted (cmdCdArg "/tmp/a\"b") = some "/tmp/a" ∧
     "/tmp/a" ≠ "/tmp/a\"b") :=
  ⟨rfl, rfl, rfl, rfl, by decide⟩

/-- Witness for C9: the gnome-terminal shell command built for the
directory `/tmp/a"b` quotes only `/tmp/a`. -/
theorem c9_raw_interpolation_witness :
    firstQuoted (gnomeShellArg "/tmp/a\"b") = some "/tmp/a" :=
  (c9_raw_interpolation "/tmp/a\"b").2.2.2.2.1

/-- Claim C10: with a resource supplied — or, when none is, with the
active editor's document providing the path — both handlers pass exactly
`dirname` of that filesystem path as the target directory, uncondition-
ally, so a selected path that itself denotes a directory opens the
terminal at that directory's parent, as the concrete instances show. -/
theorem c10_dirname_of_path (behav : String → List String → SpawnBehavior)
    (plt p q : String) (activeDoc : Option String) :
    activateHandler behav plt (some p) activeDoc =
      terminalActionsAt behav plt (dirname p) ∧
    activateHandler behav plt none (some q) =
      terminalActionsAt behav plt (dirname q) ∧
    activateHandlerMin behav (some p) activeDoc =
      (HostAction.spawnAttempt "alacritty" ["--working-directory", dirname p] ::
        if (openAlacrittyTmux (behav "alacritty" ["--working-directory", dirname p])).outcome
            = LaunchOutcome.Failed then
          [.showError "Failed to open Alacritty (is it installed?)."]
        else []) ∧
    activateHandlerMin behav none (some q) =
      (HostAction.spawnAttempt "alacritty" ["--working-directory", dirname q] ::
        if (openAlacrittyTmux (behav "alacritty" ["--working-directory", dirname q])).outcome
            = LaunchOutcome.Failed then
          [.showError "Failed to open Alacritty (is it installed?)."]
        else []) ∧
    dirname "/home/me/projects/foo/src/index.js" = "/home/me/projects/foo/src" ∧
    dirname "/home/me/projects/foo" = "/home/me/projects" :=
  ⟨rfl, rfl, rfl, rfl, by decide, by decide⟩
